import Mathlib

/-!
# go-sshlib `auth.go`: credential construction

A shallow embedding of `src/auth.go`.  Each Go function becomes a Lean function
that returns the Go result tuple together with the list of collaborator calls
it made, in call order.  Collaborators that live outside `auth.go` (the `ssh`
package, `ioutil.ReadFile`, `getAbsPath`, the methods of `PKCS11`) are taken as
parameters.

Go conventions used throughout:
* an interface or pointer value that may be `nil` is an `Option`, `none` being `nil`;
* a `(value, error)` result is a pair, both components kept, because the code
  sometimes uses the value without looking at the error;
* a slice is a `List`, the `nil` slice being `[]`.
-/

namespace Sshlib

/-- Raw file contents and `[]byte` values. -/
abbrev Bytes := List UInt8

/-- An error value produced by a collaborator, identified by its message. -/
abbrev LibErr := String

/-- Go `error` values that `auth.go` can hand back: either one received from a
collaborator, or one minted in `auth.go` itself by `fmt.Errorf`. -/
inductive GoError where
  | lib (e : LibErr)
  | errorf (msg : String)
  deriving DecidableEq, Repr

/-- Collaborator calls, as recorded in call order. -/
inductive Op where
  | getAbsPath (path : String)
  | ReadFile (path : String)
  | ParsePrivateKey
  | ParsePrivateKeyWithPassphrase
  | ParseAuthorizedKey
  | NewCertSigner
  | CreateCtx
  | GetTokenLabel
  | RecreateCtx (provider : String)
  | GetKeyID
  | GetCryptoSigner
  | NewSignerFromSigner
  deriving DecidableEq, Repr

/-- The `ssh.PublicKey` interface as far as `auth.go` distinguishes its dynamic
type: a `*ssh.Certificate` or anything else. -/
inductive PublicKey (K T : Type) where
  | key (k : K)
  | certificate (c : T)
  deriving DecidableEq, Repr

/-- The `ssh.AuthMethod` values built by `ssh.Password` and `ssh.PublicKeys`. -/
inductive AuthMethod (S : Type) where
  | Password (secret : String)
  | PublicKeys (signers : List (Option S))
  deriving DecidableEq, Repr

/-- Collaborators that are plain functions of their arguments: path resolution,
file reading, and the `ssh` package.  `S` is `ssh.Signer`, `K` a bare public
key, `T` an `ssh.Certificate`, `C` a `crypto.Signer`. -/
structure Lib (S K T C : Type) where
  getAbsPath : String → String
  ReadFile : String → Bytes × Option LibErr
  ParsePrivateKey : Bytes → Option S × Option LibErr
  ParsePrivateKeyWithPassphrase : Bytes → Bytes → Option S × Option LibErr
  ParseAuthorizedKey : Bytes → Option (PublicKey K T) × Option LibErr
  NewCertSigner : T → Option S → Option S × Option LibErr
  NewSignerFromSigner : C → Option S × Option LibErr

/-- The `PKCS11` struct.  `auth.go` touches the two named fields; everything
else the methods read or write (remaining fields, the token, open handles) is
gathered in `hsm`. -/
structure PKCS11 (σ : Type) where
  Pkcs11Provider : String
  PIN : String
  hsm : σ
  deriving DecidableEq, Repr

/-- The methods of `*PKCS11` called by `auth.go`.  Each may update the struct
and returns its Go result. -/
structure Binding (σ C : Type) where
  CreateCtx : PKCS11 σ → Option LibErr × PKCS11 σ
  GetTokenLabel : PKCS11 σ → Option LibErr × PKCS11 σ
  RecreateCtx : String → PKCS11 σ → Option LibErr × PKCS11 σ
  GetKeyID : PKCS11 σ → Option LibErr × PKCS11 σ
  GetCryptoSigner : PKCS11 σ → (List C × Option LibErr) × PKCS11 σ

/-- A Go `(value, err)` return together with the calls made. -/
structure Ret (α : Type) where
  val : α
  err : Option GoError
  trace : List Op
  deriving DecidableEq, Repr

/-- A Go `(value, err)` return of a function working on a `PKCS11`, with the
state the struct was left in and the calls made. -/
structure RetP (σ α : Type) where
  val : α
  err : Option GoError
  hsm : σ
  trace : List Op
  deriving DecidableEq, Repr

/-- The conversion `[]byte(password)`. -/
def bytesOf (s : String) : Bytes := s.toUTF8.toList

variable {S K T C σ : Type}

/-- `CreateAuthMethodPassword` (auth.go 16-18). -/
def CreateAuthMethodPassword (password : String) : AuthMethod S :=
  AuthMethod.Password password

/-- `CreateSignerPublicKey` (auth.go 34-51). -/
def CreateSignerPublicKey (lib : Lib S K T C) (key password : String) : Ret (Option S) :=
  let key := lib.getAbsPath key
  match lib.ReadFile key with
  | (_, some e) =>
    { val := none, err := some (GoError.lib e),
      trace := [Op.getAbsPath key, Op.ReadFile key] }
  | (keyData, none) =>
    if password ≠ "" then
      let r := lib.ParsePrivateKeyWithPassphrase keyData (bytesOf password)
      { val := r.1, err := r.2.map GoError.lib,
        trace := [Op.getAbsPath key, Op.ReadFile key, Op.ParsePrivateKeyWithPassphrase] }
    else
      let r := lib.ParsePrivateKey keyData
      { val := r.1, err := r.2.map GoError.lib,
        trace := [Op.getAbsPath key, Op.ReadFile key, Op.ParsePrivateKey] }

/-- `CreateAuthMethodPublicKey` (auth.go 22-30). -/
def CreateAuthMethodPublicKey (lib : Lib S K T C) (key password : String) :
    Ret (Option (AuthMethod S)) :=
  let r := CreateSignerPublicKey lib key password
  match r.err with
  | some e => { val := none, err := some e, trace := r.trace }
  | none => { val := some (AuthMethod.PublicKeys [r.val]), err := none, trace := r.trace }

/-- `CreateSignerCertificate` (auth.go 73-103). -/
def CreateSignerCertificate (lib : Lib S K T C) (cert : String) (keySigner : Option S) :
    Ret (Option S) :=
  let cert := lib.getAbsPath cert
  match lib.ReadFile cert with
  | (_, some e) =>
    { val := none, err := some (GoError.lib e),
      trace := [Op.getAbsPath cert, Op.ReadFile cert] }
  | (certData, none) =>
    match lib.ParseAuthorizedKey certData with
    | (_, some e) =>
      { val := none, err := some (GoError.lib e),
        trace := [Op.getAbsPath cert, Op.ReadFile cert, Op.ParseAuthorizedKey] }
    | (some (PublicKey.certificate certificate), none) =>
      let r := lib.NewCertSigner certificate keySigner
      { val := r.1, err := r.2.map GoError.lib,
        trace := [Op.getAbsPath cert, Op.ReadFile cert, Op.ParseAuthorizedKey,
                  Op.NewCertSigner] }
    | (_, none) =>
      { val := none, err := some (GoError.errorf "Error: Not create certificate struct data\n"),
        trace := [Op.getAbsPath cert, Op.ReadFile cert, Op.ParseAuthorizedKey] }

/-- `CreateAuthMethodCertificate` (auth.go 61-69). -/
def CreateAuthMethodCertificate (lib : Lib S K T C) (cert : String) (keySigner : Option S) :
    Ret (Option (AuthMethod S)) :=
  let r := CreateSignerCertificate lib cert keySigner
  match r.err with
  | some e => { val := none, err := some e, trace := r.trace }
  | none => { val := some (AuthMethod.PublicKeys [r.val]), err := none, trace := r.trace }

/-- The loop of `CreateSignerPKCS11` (auth.go 161-164): every raw signer is
handed to `ssh.NewSignerFromSigner`, the error is dropped, and the returned
signer value is appended. -/
def exchangeSigners (lib : Lib S K T C) (signers : List (Option S)) :
    List C → List (Option S)
  | [] => signers
  | cryptoSigner :: rest =>
    let signer := (lib.NewSignerFromSigner cryptoSigner).1
    exchangeSigners lib (signers ++ [signer]) rest

/-- `CreateSignerPKCS11` (auth.go 121-167), started with the `PKCS11` state `w`
(zero-valued fields, current token). -/
def CreateSignerPKCS11 (lib : Lib S K T C) (b : Binding σ C) (w : σ) (provider pin : String) :
    RetP σ (List (Option S)) :=
  let provider := lib.getAbsPath provider
  let p11 : PKCS11 σ := { Pkcs11Provider := provider, PIN := pin, hsm := w }
  match b.CreateCtx p11 with
  | (some e, p11) =>
    { val := [], err := some (GoError.lib e), hsm := p11.hsm,
      trace := [Op.getAbsPath provider, Op.CreateCtx] }
  | (none, p11) =>
    match b.GetTokenLabel p11 with
    | (some e, p11) =>
      { val := [], err := some (GoError.lib e), hsm := p11.hsm,
        trace := [Op.getAbsPath provider, Op.CreateCtx, Op.GetTokenLabel] }
    | (none, p11) =>
      let arg := p11.Pkcs11Provider
      match b.RecreateCtx arg p11 with
      | (some e, p11) =>
        { val := [], err := some (GoError.lib e), hsm := p11.hsm,
          trace := [Op.getAbsPath provider, Op.CreateCtx, Op.GetTokenLabel,
                    Op.RecreateCtx arg] }
      | (none, p11) =>
        match b.GetKeyID p11 with
        | (some e, p11) =>
          { val := [], err := some (GoError.lib e), hsm := p11.hsm,
            trace := [Op.getAbsPath provider, Op.CreateCtx, Op.GetTokenLabel,
                      Op.RecreateCtx arg, Op.GetKeyID] }
        | (none, p11) =>
          match b.GetCryptoSigner p11 with
          | ((_, some e), p11) =>
            { val := [], err := some (GoError.lib e), hsm := p11.hsm,
              trace := [Op.getAbsPath provider, Op.CreateCtx, Op.GetTokenLabel,
                        Op.RecreateCtx arg, Op.GetKeyID, Op.GetCryptoSigner] }
          | ((cryptoSigners, none), p11) =>
            { val := exchangeSigners lib [] cryptoSigners, err := none, hsm := p11.hsm,
              trace := [Op.getAbsPath provider, Op.CreateCtx, Op.GetTokenLabel,
                        Op.RecreateCtx arg, Op.GetKeyID, Op.GetCryptoSigner]
                       ++ List.replicate cryptoSigners.length Op.NewSignerFromSigner }

/-- The loop of `CreateAuthMethodPKCS11` (auth.go 113-115). -/
def wrapSigners (auth : List (AuthMethod S)) : List (Option S) → List (AuthMethod S)
  | [] => auth
  | signer :: rest => wrapSigners (auth ++ [AuthMethod.PublicKeys [signer]]) rest

/-- `CreateAuthMethodPKCS11` (auth.go 107-117). -/
def CreateAuthMethodPKCS11 (lib : Lib S K T C) (b : Binding σ C) (w : σ)
    (provider pin : String) : RetP σ (List (AuthMethod S)) :=
  let r := CreateSignerPKCS11 lib b w provider pin
  match r.err with
  | some e => { val := [], err := some e, hsm := r.hsm, trace := r.trace }
  | none => { val := wrapSigners [] r.val, err := none, hsm := r.hsm, trace := r.trace }

/-! ## Fixtures: a stub `ssh` package and a counting fake of the HSM binding -/

/-- A stub of the collaborators over small numeric stand-ins.  Signers, bare
keys, certificates and raw signers are numbers; a certificate `c` embeds the
public key of signer `c`; raw signer `0` has an unsupported key type. -/
def stubLib : Lib Nat Nat Nat Nat where
  getAbsPath := fun p => "/abs/" ++ p
  ReadFile := fun p =>
    if p = "/abs/id_rsa" then ([1], none)
    else if p = "/abs/id_rsa-cert.pub" then ([2], none)
    else if p = "/abs/id_rsa.pub" then ([3], none)
    else ([], some "open: no such file or directory")
  ParsePrivateKey := fun d =>
    if d = [1] then (some 7, none) else (none, some "ssh: no key found")
  ParsePrivateKeyWithPassphrase := fun d _ =>
    if d = [1] then (none, some "ssh: not an encrypted key") else (none, some "ssh: no key found")
  ParseAuthorizedKey := fun d =>
    if d = [2] then (some (PublicKey.certificate 7), none)
    else if d = [3] then (some (PublicKey.key 7), none)
    else (none, some "ssh: no key found")
  NewCertSigner := fun c s =>
    if s = some c then (some (100 + c), none)
    else (none, some "ssh: signer and cert have different public key")
  NewSignerFromSigner := fun k =>
    if k = 0 then (none, some "ssh: unsupported key type") else (some (10 * k), none)

/-- State of a fake HSM binding: how often a context was opened and released,
the step at which a failure is injected (`0` for none), and the raw signers on
the token. -/
structure Fake where
  opened : Nat
  released : Nat
  failAt : Nat
  keys : List Nat
  deriving DecidableEq, Repr

/-- The release entry point of the fake; it counts one release. -/
def Fake.release (f : Fake) : Fake := { f with released := f.released + 1 }

/-- Result of a fake step numbered `k`: the injected failure, or success. -/
def Fake.step (k : Nat) (p : PKCS11 Fake) : Option LibErr × PKCS11 Fake :=
  if p.hsm.failAt = k then (some ("injected failure at step " ++ toString k), p) else (none, p)

/-- The fake binding.  `CreateCtx` acquires the context (one open) before any
injected failure; `GetKeyID` rejects every PIN but `"1234"`. -/
def fakeBinding : Binding Fake Nat where
  CreateCtx := fun p =>
    Fake.step 1 { p with hsm := { p.hsm with opened := p.hsm.opened + 1 } }
  GetTokenLabel := Fake.step 2
  RecreateCtx := fun _ p => Fake.step 3 p
  GetKeyID := fun p =>
    if p.PIN ≠ "1234" then (some "pkcs11: 0xA0: CKR_PIN_INCORRECT", p) else Fake.step 4 p
  GetCryptoSigner := fun p =>
    if p.hsm.failAt = 5 then (([], some "injected failure at step 5"), p)
    else ((p.hsm.keys, none), p)

/-- A binding without counters or failures: the state is the list of raw
signers on the token, and no step changes it. -/
def tokenBinding : Binding (List Nat) Nat where
  CreateCtx := fun p => (none, p)
  GetTokenLabel := fun p => (none, p)
  RecreateCtx := fun _ p => (none, p)
  GetKeyID := fun p => (none, p)
  GetCryptoSigner := fun p => ((p.hsm, none), p)

/-- Whether a recorded call is one of the five setup steps of the binding. -/
def Op.isStep : Op → Bool
  | Op.CreateCtx | Op.GetTokenLabel | Op.RecreateCtx _ | Op.GetKeyID | Op.GetCryptoSigner => true
  | _ => false

/-- A stub verifier: accepts a password-variant method carrying `literal`. -/
def stubVerifier (literal : String) : AuthMethod S → Bool
  | AuthMethod.Password secret => decide (secret = literal)
  | AuthMethod.PublicKeys _ => false

/-! ## Lemmas about the two loops -/

theorem exchangeSigners_eq (lib : Lib S K T C) (signers : List (Option S)) (cs : List C) :
    exchangeSigners lib signers cs
      = signers ++ cs.map (fun c => (lib.NewSignerFromSigner c).1) := by
  induction cs generalizing signers with
  | nil => simp [exchangeSigners]
  | cons c rest ih => simp [exchangeSigners, ih]

theorem wrapSigners_eq (auth : List (AuthMethod S)) (ss : List (Option S)) :
    wrapSigners auth ss = auth ++ ss.map (fun s => AuthMethod.PublicKeys [s]) := by
  induction ss generalizing auth with
  | nil => simp [wrapSigners]
  | cons s rest ih => simp [wrapSigners, ih]

/-- When the five setup steps succeed, the result is the image of the raw
signers under "first component of `ssh.NewSignerFromSigner`". -/
theorem CreateSignerPKCS11_of_steps_ok (lib : Lib S K T C) (b : Binding σ C) (w : σ)
    (provider pin : String) (p1 p2 p3 p4 p5 : PKCS11 σ) (raws : List C)
    (h1 : b.CreateCtx ⟨lib.getAbsPath provider, pin, w⟩ = (none, p1))
    (h2 : b.GetTokenLabel p1 = (none, p2))
    (h3 : b.RecreateCtx p2.Pkcs11Provider p2 = (none, p3))
    (h4 : b.GetKeyID p3 = (none, p4))
    (h5 : b.GetCryptoSigner p4 = ((raws, none), p5)) :
    CreateSignerPKCS11 lib b w provider pin =
      { val := raws.map (fun c => (lib.NewSignerFromSigner c).1), err := none, hsm := p5.hsm,
        trace := [Op.getAbsPath (lib.getAbsPath provider), Op.CreateCtx, Op.GetTokenLabel,
                  Op.RecreateCtx p2.Pkcs11Provider, Op.GetKeyID, Op.GetCryptoSigner]
                 ++ List.replicate raws.length Op.NewSignerFromSigner } := by
  simp [CreateSignerPKCS11, h1, h2, h3, h4, h5, exchangeSigners_eq]

/-! ## HSM token credential -/

/-- C1, evaluated on the code: with a token holding raw signers `0` and `2`, all
five setup steps succeeding and the adaptation of `0` failing, the call returns
no error and TWO elements, the first being the nil signer; the failed raw signer
is not skipped. -/
theorem CreateSignerPKCS11_keeps_failed_adaptation :
    (stubLib.NewSignerFromSigner 0).2 = some "ssh: unsupported key type"
    ∧ (stubLib.NewSignerFromSigner 2) = (some 20, none)
    ∧ (CreateSignerPKCS11 stubLib fakeBinding ⟨0, 0, 0, [0, 2]⟩ "p11.so" "1234").err = none
    ∧ (CreateSignerPKCS11 stubLib fakeBinding ⟨0, 0, 0, [0, 2]⟩ "p11.so" "1234").val
        = [none, some 20]
    ∧ (CreateSignerPKCS11 stubLib fakeBinding ⟨0, 0, 0, [0, 2]⟩ "p11.so" "1234").val
        ≠ [some 20] := by
  decide

/-- C2: when the five setup steps succeed, `GetCryptoSigner` yields `raws` and
every adaptation succeeds, the call returns no error and exactly `raws.length`
signers, the `i`-th being the (non-nil) adaptation of the `i`-th raw signer; and
a second call made against the token state the first one left, when that state
is the one the first call started from, returns the same sequence. -/
theorem CreateSignerPKCS11_all_adapted (lib : Lib S K T C) (b : Binding σ C) (w : σ)
    (provider pin : String) (p1 p2 p3 p4 p5 : PKCS11 σ) (raws : List C)
    (h1 : b.CreateCtx ⟨lib.getAbsPath provider, pin, w⟩ = (none, p1))
    (h2 : b.GetTokenLabel p1 = (none, p2))
    (h3 : b.RecreateCtx p2.Pkcs11Provider p2 = (none, p3))
    (h4 : b.GetKeyID p3 = (none, p4))
    (h5 : b.GetCryptoSigner p4 = ((raws, none), p5))
    (hadapt : ∀ c ∈ raws, ∃ s, lib.NewSignerFromSigner c = (some s, none)) :
    (CreateSignerPKCS11 lib b w provider pin).err = none
    ∧ (CreateSignerPKCS11 lib b w provider pin).val.length = raws.length
    ∧ (∀ i (hi : i < raws.length),
        (CreateSignerPKCS11 lib b w provider pin).val[i]?
          = some (lib.NewSignerFromSigner (raws.get ⟨i, hi⟩)).1
        ∧ ∃ s, lib.NewSignerFromSigner (raws.get ⟨i, hi⟩) = (some s, none))
    ∧ ((CreateSignerPKCS11 lib b w provider pin).hsm = w →
        (CreateSignerPKCS11 lib b (CreateSignerPKCS11 lib b w provider pin).hsm provider pin).val
          = (CreateSignerPKCS11 lib b w provider pin).val) := by
  rw [CreateSignerPKCS11_of_steps_ok lib b w provider pin p1 p2 p3 p4 p5 raws h1 h2 h3 h4 h5]
  refine ⟨rfl, by simp, ?_, ?_⟩
  · intro i hi
    refine ⟨?_, hadapt _ (List.get_mem raws i hi)⟩
    simp [List.getElem?_map, List.getElem?_eq_getElem hi]
  · intro hw
    simp only at hw
    rw [hw, CreateSignerPKCS11_of_steps_ok lib b w provider pin p1 p2 p3 p4 p5 raws h1 h2 h3 h4 h5]

theorem CreateSignerPKCS11_all_adapted_witness :
    (CreateSignerPKCS11 stubLib tokenBinding [3, 2] "p11.so" "1234").err = none
    ∧ (CreateSignerPKCS11 stubLib tokenBinding [3, 2] "p11.so" "1234").val.length = 2
    ∧ (CreateSignerPKCS11 stubLib tokenBinding [3, 2] "p11.so" "1234").val[1]? = some (some 20)
    ∧ (CreateSignerPKCS11 stubLib tokenBinding
          (CreateSignerPKCS11 stubLib tokenBinding [3, 2] "p11.so" "1234").hsm "p11.so" "1234").val
        = (CreateSignerPKCS11 stubLib tokenBinding [3, 2] "p11.so" "1234").val := by
  have h := CreateSignerPKCS11_all_adapted stubLib tokenBinding [3, 2] "p11.so" "1234"
    ⟨"/abs/p11.so", "1234", [3, 2]⟩ ⟨"/abs/p11.so", "1234", [3, 2]⟩
    ⟨"/abs/p11.so", "1234", [3, 2]⟩ ⟨"/abs/p11.so", "1234", [3, 2]⟩
    ⟨"/abs/p11.so", "1234", [3, 2]⟩ [3, 2] rfl rfl rfl rfl rfl
    (by
      intro c hc
      simp only [List.mem_cons, List.mem_singleton, List.not_mem_nil, or_false] at hc
      rcases hc with rfl | rfl
      · exact ⟨30, rfl⟩
      · exact ⟨20, rfl⟩)
  exact ⟨h.1, h.2.1, (h.2.2.1 1 (by decide)).1, h.2.2.2 rfl⟩

/-- C3: the binding steps run in the order CreateCtx, GetTokenLabel,
RecreateCtx, GetKeyID, GetCryptoSigner; whichever step is the first to fail,
the calls made are exactly the steps up to and including it, the error
returned is that step's error, and no signer is returned.  In particular a
failing GetKeyID (wrong PIN) is followed neither by GetCryptoSigner nor by any
signer adaptation. -/
theorem CreateSignerPKCS11_first_failure (lib : Lib S K T C) (b : Binding σ C) (w : σ)
    (provider pin : String) :
    (∃ arg, ((CreateSignerPKCS11 lib b w provider pin).trace.filter Op.isStep)
        <+: [Op.CreateCtx, Op.GetTokenLabel, Op.RecreateCtx arg, Op.GetKeyID, Op.GetCryptoSigner])
    ∧ (∀ e p1, b.CreateCtx ⟨lib.getAbsPath provider, pin, w⟩ = (some e, p1) →
        (CreateSignerPKCS11 lib b w provider pin).trace
          = [Op.getAbsPath (lib.getAbsPath provider), Op.CreateCtx]
        ∧ (CreateSignerPKCS11 lib b w provider pin).err = some (GoError.lib e)
        ∧ (CreateSignerPKCS11 lib b w provider pin).val = [])
    ∧ (∀ e p1 p2, b.CreateCtx ⟨lib.getAbsPath provider, pin, w⟩ = (none, p1) →
        b.GetTokenLabel p1 = (some e, p2) →
        (CreateSignerPKCS11 lib b w provider pin).trace
          = [Op.getAbsPath (lib.getAbsPath provider), Op.CreateCtx, Op.GetTokenLabel]
        ∧ (CreateSignerPKCS11 lib b w provider pin).err = some (GoError.lib e)
        ∧ (CreateSignerPKCS11 lib b w provider pin).val = [])
    ∧ (∀ e p1 p2 p3, b.CreateCtx ⟨lib.getAbsPath provider, pin, w⟩ = (none, p1) →
        b.GetTokenLabel p1 = (none, p2) →
        b.RecreateCtx p2.Pkcs11Provider p2 = (some e, p3) →
        (CreateSignerPKCS11 lib b w provider pin).trace
          = [Op.getAbsPath (lib.getAbsPath provider), Op.CreateCtx, Op.GetTokenLabel,
             Op.RecreateCtx p2.Pkcs11Provider]
        ∧ (CreateSignerPKCS11 lib b w provider pin).err = some (GoError.lib e)
        ∧ (CreateSignerPKCS11 lib b w provider pin).val = [])
    ∧ (∀ e p1 p2 p3 p4, b.CreateCtx ⟨lib.getAbsPath provider, pin, w⟩ = (none, p1) →
        b.GetTokenLabel p1 = (none, p2) →
        b.RecreateCtx p2.Pkcs11Provider p2 = (none, p3) →
        b.GetKeyID p3 = (some e, p4) →
        (CreateSignerPKCS11 lib b w provider pin).trace
          = [Op.getAbsPath (lib.getAbsPath provider), Op.CreateCtx, Op.GetTokenLabel,
             Op.RecreateCtx p2.Pkcs11Provider, Op.GetKeyID]
        ∧ Op.GetCryptoSigner ∉ (CreateSignerPKCS11 lib b w provider pin).trace
        ∧ Op.NewSignerFromSigner ∉ (CreateSignerPKCS11 lib b w provider pin).trace
        ∧ (CreateSignerPKCS11 lib b w provider pin).err = some (GoError.lib e)
        ∧ (CreateSignerPKCS11 lib b w provider pin).val = [])
    ∧ (∀ e p1 p2 p3 p4 p5 cs, b.CreateCtx ⟨lib.getAbsPath provider, pin, w⟩ = (none, p1) →
        b.GetTokenLabel p1 = (none, p2) →
        b.RecreateCtx p2.Pkcs11Provider p2 = (none, p3) →
        b.GetKeyID p3 = (none, p4) →
        b.GetCryptoSigner p4 = ((cs, some e), p5) →
        (CreateSignerPKCS11 lib b w provider pin).trace
          = [Op.getAbsPath (lib.getAbsPath provider), Op.CreateCtx, Op.GetTokenLabel,
             Op.RecreateCtx p2.Pkcs11Provider, Op.GetKeyID, Op.GetCryptoSigner]
        ∧ (CreateSignerPKCS11 lib b w provider pin).err = some (GoError.lib e)
        ∧ (CreateSignerPKCS11 lib b w provider pin).val = []) := by
  refine ⟨?_, ?_, ?_, ?_, ?_, ?_⟩
  · rcases h1 : b.CreateCtx ⟨lib.getAbsPath provider, pin, w⟩ with ⟨_ | e, p1⟩
    swap
    · exact ⟨"", by simp [CreateSignerPKCS11, h1, Op.isStep, List.filter]⟩
    rcases h2 : b.GetTokenLabel p1 with ⟨_ | e, p2⟩
    swap
    · exact ⟨"", by simp [CreateSignerPKCS11, h1, h2, Op.isStep, List.filter]⟩
    refine ⟨p2.Pkcs11Provider, ?_⟩
    rcases h3 : b.RecreateCtx p2.Pkcs11Provider p2 with ⟨_ | e, p3⟩
    swap
    · simp [CreateSignerPKCS11, h1, h2, h3, Op.isStep, List.filter]
    rcases h4 : b.GetKeyID p3 with ⟨_ | e, p4⟩
    swap
    · simp [CreateSignerPKCS11, h1, h2, h3, h4, Op.isStep, List.filter]
    rcases h5 : b.GetCryptoSigner p4 with ⟨⟨cs, _ | e⟩, p5⟩
    · simp [CreateSignerPKCS11, h1, h2, h3, h4, h5, Op.isStep, List.filter, List.filter_append]
    · simp [CreateSignerPKCS11, h1, h2, h3, h4, h5, Op.isStep, List.filter]
  · intro e p1 h1
    simp [CreateSignerPKCS11, h1]
  · intro e p1 p2 h1 h2
    simp [CreateSignerPKCS11, h1, h2]
  · intro e p1 p2 p3 h1 h2 h3
    simp [CreateSignerPKCS11, h1, h2, h3]
  · intro e p1 p2 p3 p4 h1 h2 h3 h4
    simp [CreateSignerPKCS11, h1, h2, h3, h4]
  · intro e p1 p2 p3 p4 p5 cs h1 h2 h3 h4 h5
    simp [CreateSignerPKCS11, h1, h2, h3, h4, h5]

theorem CreateSignerPKCS11_first_failure_witness :
    (CreateSignerPKCS11 stubLib fakeBinding ⟨0, 0, 0, [3, 2]⟩ "p11.so" "0000").trace
      = [Op.getAbsPath "/abs/p11.so", Op.CreateCtx, Op.GetTokenLabel,
         Op.RecreateCtx "/abs/p11.so", Op.GetKeyID]
    ∧ Op.GetCryptoSigner ∉
        (CreateSignerPKCS11 stubLib fakeBinding ⟨0, 0, 0, [3, 2]⟩ "p11.so" "0000").trace
    ∧ Op.NewSignerFromSigner ∉
        (CreateSignerPKCS11 stubLib fakeBinding ⟨0, 0, 0, [3, 2]⟩ "p11.so" "0000").trace
    ∧ (CreateSignerPKCS11 stubLib fakeBinding ⟨0, 0, 0, [3, 2]⟩ "p11.so" "0000").err
        = some (GoError.lib "pkcs11: 0xA0: CKR_PIN_INCORRECT")
    ∧ (CreateSignerPKCS11 stubLib fakeBinding ⟨0, 0, 0, [3, 2]⟩ "p11.so" "0000").val = [] :=
  (CreateSignerPKCS11_first_failure stubLib fakeBinding ⟨0, 0, 0, [3, 2]⟩ "p11.so" "0000").2.2.2.2.1
    "pkcs11: 0xA0: CKR_PIN_INCORRECT"
    ⟨"/abs/p11.so", "0000", ⟨1, 0, 0, [3, 2]⟩⟩ ⟨"/abs/p11.so", "0000", ⟨1, 0, 0, [3, 2]⟩⟩
    ⟨"/abs/p11.so", "0000", ⟨1, 0, 0, [3, 2]⟩⟩ ⟨"/abs/p11.so", "0000", ⟨1, 0, 0, [3, 2]⟩⟩
    rfl rfl rfl rfl

/-- C4 as stated fails: over the counting fake, whose `CreateCtx` opens one
context, the release count on return is `0`, not `1`, on the successful run and
on the runs with a failure injected at step 2 and at step 4. -/
theorem CreateSignerPKCS11_never_releases_fake :
    ((CreateSignerPKCS11 stubLib fakeBinding ⟨0, 0, 0, [3, 2]⟩ "p11.so" "1234").err = none
      ∧ (CreateSignerPKCS11 stubLib fakeBinding ⟨0, 0, 0, [3, 2]⟩ "p11.so" "1234").hsm.opened = 1
      ∧ (CreateSignerPKCS11 stubLib fakeBinding ⟨0, 0, 0, [3, 2]⟩ "p11.so" "1234").hsm.released ≠ 1)
    ∧ ((CreateSignerPKCS11 stubLib fakeBinding ⟨0, 0, 2, [3, 2]⟩ "p11.so" "1234").err
          = some (GoError.lib "injected failure at step 2")
      ∧ (CreateSignerPKCS11 stubLib fakeBinding ⟨0, 0, 2, [3, 2]⟩ "p11.so" "1234").hsm.opened = 1
      ∧ (CreateSignerPKCS11 stubLib fakeBinding ⟨0, 0, 2, [3, 2]⟩ "p11.so" "1234").hsm.released ≠ 1)
    ∧ ((CreateSignerPKCS11 stubLib fakeBinding ⟨0, 0, 4, [3, 2]⟩ "p11.so" "1234").err
          = some (GoError.lib "injected failure at step 4")
      ∧ (CreateSignerPKCS11 stubLib fakeBinding ⟨0, 0, 4, [3, 2]⟩ "p11.so" "1234").hsm.opened = 1
      ∧ (CreateSignerPKCS11 stubLib fakeBinding ⟨0, 0, 4, [3, 2]⟩ "p11.so" "1234").hsm.released
          ≠ 1) := by
  decide

/-- C4 amended: `CreateSignerPKCS11` performs no release of its own.  For every
binding and every quantity `released` read off the binding state that none of
the five setup steps changes, its value on return, on every path, is its value
at entry. -/
theorem CreateSignerPKCS11_adds_no_release {α : Type} (lib : Lib S K T C) (b : Binding σ C)
    (released : σ → α)
    (h1 : ∀ p, released (b.CreateCtx p).2.hsm = released p.hsm)
    (h2 : ∀ p, released (b.GetTokenLabel p).2.hsm = released p.hsm)
    (h3 : ∀ a p, released (b.RecreateCtx a p).2.hsm = released p.hsm)
    (h4 : ∀ p, released (b.GetKeyID p).2.hsm = released p.hsm)
    (h5 : ∀ p, released (b.GetCryptoSigner p).2.hsm = released p.hsm)
    (w : σ) (provider pin : String) :
    released (CreateSignerPKCS11 lib b w provider pin).hsm = released w := by
  have e1 := h1 ⟨lib.getAbsPath provider, pin, w⟩
  rcases k1 : b.CreateCtx ⟨lib.getAbsPath provider, pin, w⟩ with ⟨_ | e, p1⟩
  swap
  · rw [k1] at e1
    simpa [CreateSignerPKCS11, k1] using e1
  rw [k1] at e1
  have e2 := h2 p1
  rcases k2 : b.GetTokenLabel p1 with ⟨_ | e, p2⟩
  swap
  · rw [k2] at e2
    simpa [CreateSignerPKCS11, k1, k2] using e2.trans e1
  rw [k2] at e2
  have e3 := h3 p2.Pkcs11Provider p2
  rcases k3 : b.RecreateCtx p2.Pkcs11Provider p2 with ⟨_ | e, p3⟩
  swap
  · rw [k3] at e3
    simpa [CreateSignerPKCS11, k1, k2, k3] using e3.trans (e2.trans e1)
  rw [k3] at e3
  have e4 := h4 p3
  rcases k4 : b.GetKeyID p3 with ⟨_ | e, p4⟩
  swap
  · rw [k4] at e4
    simpa [CreateSignerPKCS11, k1, k2, k3, k4] using e4.trans (e3.trans (e2.trans e1))
  rw [k4] at e4
  have e5 := h5 p4
  rcases k5 : b.GetCryptoSigner p4 with ⟨⟨cs, _ | e⟩, p5⟩
  · rw [k5] at e5
    simpa [CreateSignerPKCS11, k1, k2, k3, k4, k5]
      using e5.trans (e4.trans (e3.trans (e2.trans e1)))
  · rw [k5] at e5
    simpa [CreateSignerPKCS11, k1, k2, k3, k4, k5]
      using e5.trans (e4.trans (e3.trans (e2.trans e1)))

theorem CreateSignerPKCS11_adds_no_release_witness :
    (CreateSignerPKCS11 stubLib fakeBinding ⟨1, 0, 3, [3, 2]⟩ "p11.so" "1234").hsm.released = 0 :=
  CreateSignerPKCS11_adds_no_release stubLib fakeBinding Fake.released
    (by intro p; simp only [fakeBinding, Fake.step]; split <;> rfl)
    (by intro p; simp only [fakeBinding, Fake.step]; split <;> rfl)
    (by intro a p; simp only [fakeBinding, Fake.step]; split <;> rfl)
    (by intro p; simp only [fakeBinding, Fake.step]; split <;> [rfl; (split <;> rfl)])
    (by intro p; simp only [fakeBinding]; split <;> rfl)
    ⟨1, 0, 3, [3, 2]⟩ "p11.so" "1234"

/-! ## Certificate credential -/

/-- C5: when the certificate file is readable and parses to a bare public key,
`CreateSignerCertificate` returns no signer and the error minted by
`fmt.Errorf`, which is no error the parser hands back on any input, and
`ssh.NewCertSigner` is not called. -/
theorem CreateSignerCertificate_bare_key (lib : Lib S K T C) (cert : String)
    (keySigner : Option S) (certData : Bytes) (k : K)
    (hread : lib.ReadFile (lib.getAbsPath cert) = (certData, none))
    (hparse : lib.ParseAuthorizedKey certData = (some (PublicKey.key k), none)) :
    (CreateSignerCertificate lib cert keySigner).val = none
    ∧ (CreateSignerCertificate lib cert keySigner).err
        = some (GoError.errorf "Error: Not create certificate struct data\n")
    ∧ (∀ d, (CreateSignerCertificate lib cert keySigner).err
        ≠ (lib.ParseAuthorizedKey d).2.map GoError.lib)
    ∧ Op.NewCertSigner ∉ (CreateSignerCertificate lib cert keySigner).trace := by
  refine ⟨?_, ?_, ?_, ?_⟩
  · simp [CreateSignerCertificate, hread, hparse]
  · simp [CreateSignerCertificate, hread, hparse]
  · intro d
    simp only [CreateSignerCertificate, hread, hparse]
    cases (lib.ParseAuthorizedKey d).2 <;> simp
  · simp [CreateSignerCertificate, hread, hparse]

theorem CreateSignerCertificate_bare_key_witness :
    (CreateSignerCertificate stubLib "id_rsa.pub" (some 7)).val = none
    ∧ (CreateSignerCertificate stubLib "id_rsa.pub" (some 7)).err
        = some (GoError.errorf "Error: Not create certificate struct data\n")
    ∧ (∀ d, (CreateSignerCertificate stubLib "id_rsa.pub" (some 7)).err
        ≠ (stubLib.ParseAuthorizedKey d).2.map GoError.lib)
    ∧ Op.NewCertSigner ∉ (CreateSignerCertificate stubLib "id_rsa.pub" (some 7)).trace :=
  CreateSignerCertificate_bare_key stubLib "id_rsa.pub" (some 7) [3] 7 rfl rfl

/-- C6: for a readable file that parses to a certificate, given that
`ssh.NewCertSigner` rejects with an error and a nil signer every pairing in
which the signer's public key differs from the certificate's embedded key: a
`keySigner` with a different key makes `CreateSignerCertificate` return the
combinator's error and no signer; and whenever the combinator succeeds with a
signer, that signer is returned without error. -/
theorem CreateSignerCertificate_combine {P : Type} (lib : Lib S K T C) (cert : String)
    (keySigner : Option S) (certData : Bytes) (certificate : T)
    (certKey : T → P) (signerKey : Option S → P)
    (hcombinator : ∀ c s, certKey c ≠ signerKey s →
      ∃ e, lib.NewCertSigner c s = (none, some e))
    (hread : lib.ReadFile (lib.getAbsPath cert) = (certData, none))
    (hparse : lib.ParseAuthorizedKey certData = (some (PublicKey.certificate certificate), none)) :
    (certKey certificate ≠ signerKey keySigner →
      ∃ e, lib.NewCertSigner certificate keySigner = (none, some e)
        ∧ (CreateSignerCertificate lib cert keySigner).err = some (GoError.lib e)
        ∧ (CreateSignerCertificate lib cert keySigner).val = none)
    ∧ (∀ s, lib.NewCertSigner certificate keySigner = (some s, none) →
        (CreateSignerCertificate lib cert keySigner).err = none
        ∧ (CreateSignerCertificate lib cert keySigner).val = some s)
    ∧ (CreateSignerCertificate lib cert keySigner).trace
        = [Op.getAbsPath (lib.getAbsPath cert), Op.ReadFile (lib.getAbsPath cert),
           Op.ParseAuthorizedKey, Op.NewCertSigner] := by
  refine ⟨?_, ?_, ?_⟩
  · intro hne
    obtain ⟨e, he⟩ := hcombinator certificate keySigner hne
    exact ⟨e, he, by simp [CreateSignerCertificate, hread, hparse, he]⟩
  · intro s hs
    simp [CreateSignerCertificate, hread, hparse, hs]
  · simp [CreateSignerCertificate, hread, hparse]

theorem CreateSignerCertificate_combine_witness :
    ((CreateSignerCertificate stubLib "id_rsa-cert.pub" (some 8)).err
        = some (GoError.lib "ssh: signer and cert have different public key")
      ∧ (CreateSignerCertificate stubLib "id_rsa-cert.pub" (some 8)).val = none)
    ∧ ((CreateSignerCertificate stubLib "id_rsa-cert.pub" (some 7)).err = none
      ∧ (CreateSignerCertificate stubLib "id_rsa-cert.pub" (some 7)).val = some 107) := by
  have hc : ∀ (c : Nat) (s : Option Nat), some c ≠ id s →
      ∃ e, stubLib.NewCertSigner c s = (none, some e) := by
    intro c s hne
    refine ⟨"ssh: signer and cert have different public key", ?_⟩
    have hne2 : ¬ s = some c := fun h => hne (by simp [h])
    simp [stubLib, hne2]
  have h8 := CreateSignerCertificate_combine stubLib "id_rsa-cert.pub" (some 8) [2] 7
    some id hc rfl rfl
  have h7 := CreateSignerCertificate_combine stubLib "id_rsa-cert.pub" (some 7) [2] 7
    some id hc rfl rfl
  obtain ⟨e, he, herr, hval⟩ := h8.1 (by decide)
  have hee : e = "ssh: signer and cert have different public key" := by
    have h2 : stubLib.NewCertSigner 7 (some 8)
        = (none, some "ssh: signer and cert have different public key") := rfl
    rw [h2] at he
    simpa using (congrArg Prod.snd he).symm
  exact ⟨⟨by rw [herr, hee], hval⟩, h7.2.1 107 rfl⟩

/-! ## Private-key credential -/

/-- C7: for a readable key file with contents `keyData`: a non-empty
passphrase returns exactly the result of
`ssh.ParsePrivateKeyWithPassphrase keyData []byte(password)` and
`ssh.ParsePrivateKey` is not called; an empty passphrase returns exactly the
result of `ssh.ParsePrivateKey keyData` and the passphrase parser is not
called. -/
theorem CreateSignerPublicKey_parser_choice (lib : Lib S K T C) (key password : String)
    (keyData : Bytes) (hread : lib.ReadFile (lib.getAbsPath key) = (keyData, none)) :
    (password ≠ "" →
      (CreateSignerPublicKey lib key password).val
          = (lib.ParsePrivateKeyWithPassphrase keyData (bytesOf password)).1
      ∧ (CreateSignerPublicKey lib key password).err
          = (lib.ParsePrivateKeyWithPassphrase keyData (bytesOf password)).2.map GoError.lib
      ∧ Op.ParsePrivateKeyWithPassphrase ∈ (CreateSignerPublicKey lib key password).trace
      ∧ Op.ParsePrivateKey ∉ (CreateSignerPublicKey lib key password).trace)
    ∧ (password = "" →
      (CreateSignerPublicKey lib key password).val = (lib.ParsePrivateKey keyData).1
      ∧ (CreateSignerPublicKey lib key password).err
          = (lib.ParsePrivateKey keyData).2.map GoError.lib
      ∧ Op.ParsePrivateKey ∈ (CreateSignerPublicKey lib key password).trace
      ∧ Op.ParsePrivateKeyWithPassphrase ∉ (CreateSignerPublicKey lib key password).trace) := by
  constructor
  · intro hp
    simp [CreateSignerPublicKey, hread, hp]
  · intro hp
    simp [CreateSignerPublicKey, hread, hp]

theorem CreateSignerPublicKey_parser_choice_witness :
    ((CreateSignerPublicKey stubLib "id_rsa" "hunter2").val = none
      ∧ (CreateSignerPublicKey stubLib "id_rsa" "hunter2").err
          = some (GoError.lib "ssh: not an encrypted key")
      ∧ Op.ParsePrivateKey ∉ (CreateSignerPublicKey stubLib "id_rsa" "hunter2").trace)
    ∧ ((CreateSignerPublicKey stubLib "id_rsa" "").val = some 7
      ∧ (CreateSignerPublicKey stubLib "id_rsa" "").err = none
      ∧ Op.ParsePrivateKeyWithPassphrase ∉ (CreateSignerPublicKey stubLib "id_rsa" "").trace) := by
  have hp := (CreateSignerPublicKey_parser_choice stubLib "id_rsa" "hunter2" [1] rfl).1
    (by decide)
  have he := (CreateSignerPublicKey_parser_choice stubLib "id_rsa" "" [1] rfl).2 rfl
  exact ⟨⟨hp.1, hp.2.1, hp.2.2.2⟩, ⟨he.1, he.2.1, he.2.2.2⟩⟩

/-- C10: when reading the resolved key file fails with `e`, whatever the
passphrase, `CreateSignerPublicKey` returns `e` and no signer and calls neither
private-key parser, and `CreateAuthMethodPublicKey` returns `e` and no
authentication method. -/
theorem CreateSignerPublicKey_read_error (lib : Lib S K T C) (key password : String)
    (data : Bytes) (e : LibErr)
    (hread : lib.ReadFile (lib.getAbsPath key) = (data, some e)) :
    (CreateSignerPublicKey lib key password).val = none
    ∧ (CreateSignerPublicKey lib key password).err = some (GoError.lib e)
    ∧ Op.ParsePrivateKey ∉ (CreateSignerPublicKey lib key password).trace
    ∧ Op.ParsePrivateKeyWithPassphrase ∉ (CreateSignerPublicKey lib key password).trace
    ∧ (CreateAuthMethodPublicKey lib key password).val = none
    ∧ (CreateAuthMethodPublicKey lib key password).err = some (GoError.lib e)
    ∧ (CreateAuthMethodPublicKey lib key password).trace
        = [Op.getAbsPath (lib.getAbsPath key), Op.ReadFile (lib.getAbsPath key)] := by
  simp [CreateAuthMethodPublicKey, CreateSignerPublicKey, hread]

theorem CreateSignerPublicKey_read_error_witness :
    (CreateSignerPublicKey stubLib "missing" "hunter2").val = none
    ∧ (CreateSignerPublicKey stubLib "missing" "hunter2").err
        = some (GoError.lib "open: no such file or directory")
    ∧ Op.ParsePrivateKey ∉ (CreateSignerPublicKey stubLib "missing" "hunter2").trace
    ∧ Op.ParsePrivateKeyWithPassphrase ∉ (CreateSignerPublicKey stubLib "missing" "hunter2").trace
    ∧ (CreateAuthMethodPublicKey stubLib "missing" "hunter2").val = none
    ∧ (CreateAuthMethodPublicKey stubLib "missing" "hunter2").err
        = some (GoError.lib "open: no such file or directory")
    ∧ (CreateAuthMethodPublicKey stubLib "missing" "hunter2").trace
        = [Op.getAbsPath (stubLib.getAbsPath "missing"),
           Op.ReadFile (stubLib.getAbsPath "missing")] :=
  CreateSignerPublicKey_read_error stubLib "missing" "hunter2" []
    "open: no such file or directory" rfl

/-! ## AuthMethod assembly -/

/-- C8: if `CreateSignerPKCS11` returns no error and signers `s_1..s_n`, then
`CreateAuthMethodPKCS11` returns no error and `n` methods, the `i`-th being
`ssh.PublicKeys(s_i)`; if it returns error `e`, `CreateAuthMethodPKCS11`
returns `e` and no method.  The binding calls made are those of
`CreateSignerPKCS11`. -/
theorem CreateAuthMethodPKCS11_wraps (lib : Lib S K T C) (b : Binding σ C) (w : σ)
    (provider pin : String) :
    ((CreateSignerPKCS11 lib b w provider pin).err = none →
      (CreateAuthMethodPKCS11 lib b w provider pin).err = none
      ∧ (CreateAuthMethodPKCS11 lib b w provider pin).val.length
          = (CreateSignerPKCS11 lib b w provider pin).val.length
      ∧ ∀ i (hi : i < (CreateSignerPKCS11 lib b w provider pin).val.length),
          (CreateAuthMethodPKCS11 lib b w provider pin).val[i]?
            = some (AuthMethod.PublicKeys
                [(CreateSignerPKCS11 lib b w provider pin).val.get ⟨i, hi⟩]))
    ∧ (∀ e, (CreateSignerPKCS11 lib b w provider pin).err = some e →
      (CreateAuthMethodPKCS11 lib b w provider pin).err = some e
      ∧ (CreateAuthMethodPKCS11 lib b w provider pin).val = [])
    ∧ (CreateAuthMethodPKCS11 lib b w provider pin).trace
        = (CreateSignerPKCS11 lib b w provider pin).trace
    ∧ (CreateAuthMethodPKCS11 lib b w provider pin).hsm
        = (CreateSignerPKCS11 lib b w provider pin).hsm := by
  refine ⟨?_, ?_, ?_, ?_⟩
  · intro h
    simp only [CreateAuthMethodPKCS11, h, wrapSigners_eq, List.nil_append, List.length_map,
      true_and]
    intro i hi
    simp [List.getElem?_map, List.getElem?_eq_getElem hi]
  · intro e h
    simp [CreateAuthMethodPKCS11, h]
  · unfold CreateAuthMethodPKCS11
    simp only
    split <;> rfl
  · unfold CreateAuthMethodPKCS11
    simp only
    split <;> rfl

theorem CreateAuthMethodPKCS11_wraps_witness :
    ((CreateAuthMethodPKCS11 stubLib fakeBinding ⟨0, 0, 0, [3, 2]⟩ "p11.so" "1234").err = none
      ∧ (CreateAuthMethodPKCS11 stubLib fakeBinding ⟨0, 0, 0, [3, 2]⟩ "p11.so" "1234").val
          = [AuthMethod.PublicKeys [some 30], AuthMethod.PublicKeys [some 20]])
    ∧ ((CreateAuthMethodPKCS11 stubLib fakeBinding ⟨0, 0, 0, [3, 2]⟩ "p11.so" "0000").err
          = some (GoError.lib "pkcs11: 0xA0: CKR_PIN_INCORRECT")
      ∧ (CreateAuthMethodPKCS11 stubLib fakeBinding ⟨0, 0, 0, [3, 2]⟩ "p11.so" "0000").val
          = []) := by
  have hok := (CreateAuthMethodPKCS11_wraps stubLib fakeBinding ⟨0, 0, 0, [3, 2]⟩
    "p11.so" "1234").1 rfl
  have hbad := (CreateAuthMethodPKCS11_wraps stubLib fakeBinding ⟨0, 0, 0, [3, 2]⟩
    "p11.so" "0000").2.1 (GoError.lib "pkcs11: 0xA0: CKR_PIN_INCORRECT") rfl
  exact ⟨⟨hok.1, by decide⟩, hbad⟩

/-- C9: for every password, the empty one included, `CreateAuthMethodPassword`
returns the password variant carrying that very string; a verifier comparing
the carried password with a literal accepts exactly when the literal is the
password, as for `"s3cret"`. -/
theorem CreateAuthMethodPassword_exact (password : String) :
    (CreateAuthMethodPassword password : AuthMethod S) = AuthMethod.Password password
    ∧ (∀ literal, stubVerifier literal (CreateAuthMethodPassword password : AuthMethod S) = true
        ↔ literal = password)
    ∧ stubVerifier "s3cret" (CreateAuthMethodPassword "s3cret" : AuthMethod S) = true
    ∧ (∀ other, other ≠ "s3cret" →
        stubVerifier other (CreateAuthMethodPassword "s3cret" : AuthMethod S) = false)
    ∧ (CreateAuthMethodPassword "" : AuthMethod S) = AuthMethod.Password "" := by
  refine ⟨rfl, ?_, ?_, ?_, rfl⟩
  · intro literal
    simp [CreateAuthMethodPassword, stubVerifier, eq_comm]
  · simp [CreateAuthMethodPassword, stubVerifier]
  · intro other h
    simp [CreateAuthMethodPassword, stubVerifier, Ne.symm h]

end Sshlib
